import Mathlib

/-!
# OpenCvVideoImShowCalculator

A shallow embedding of `mediapipe/calculators/video/opencv_video_imshow_calculator.cc`:
the calculator that shows the frames of its VIDEO input in the OpenCV window "MediaPipe".

The calculator has no data members.  Every entry point is embedded as a function that
returns what the C++ function returns together with the OpenCV calls it issued, in order.
-/

namespace mediapipe

/-! ## Framework and library types the calculator reads -/

/-- Modelled from the spec: the framework's `Timestamp` class (timestamp.h) is not part of the
source file; a timestamp wraps a signed integer. -/
structure Timestamp where
  value : Int
  deriving DecidableEq

/-- Modelled from the spec: `Timestamp::PreStream()`, the pre-stream sentinel of the framework
(timestamp.h, not part of the source file); the framework places it at the minimum 64-bit
integer plus two. Only its being one fixed timestamp matters to the calculator. -/
def Timestamp.PreStream : Timestamp := ⟨-9223372036854775806⟩

/-- Modelled from the spec: the enumeration `ImageFormat::Format` (image_format.proto) is not
part of the source file. The spec names grayscale (GRAY8), RGB (SRGB) and RGBA (SRGBA); the
other constructors are the remaining pixel formats of the framework. -/
inductive Format where
  | UNKNOWN
  | SRGB
  | SRGBA
  | GRAY8
  | GRAY16
  | YCBCR420P
  | YCBCR420P10
  | SRGB48
  | SRGBA64
  | VEC32F1
  | LAB8
  | SBGRA
  | VEC32F2
  deriving DecidableEq

/-- Modelled from the spec: `ImageFrame::NumberOfChannelsForFormat` (image_frame.cc) is not
part of the source file: grayscale has one channel, RGB three, RGBA four. The framework
defines no channel count for UNKNOWN and the YCbCr formats; the calculator never looks at the
channel count of a frame in those formats, and 0 stands for it here. -/
def NumberOfChannelsForFormat : Format → Nat
  | .GRAY8 => 1
  | .GRAY16 => 1
  | .SRGB => 3
  | .SRGB48 => 3
  | .SRGBA => 4
  | .SRGBA64 => 4
  | .VEC32F1 => 1
  | .VEC32F2 => 2
  | .LAB8 => 3
  | .SBGRA => 4
  | _ => 0

/-- Modelled from the spec: `ImageFrame::ByteDepthForFormat` (image_frame.cc) is not part of the
source file: the number of bytes of one channel value. GRAY8, SRGB and SRGBA hold one byte per
channel. As for the channel count, 0 stands for the formats without a byte depth. -/
def ByteDepthForFormat : Format → Nat
  | .GRAY8 => 1
  | .GRAY16 => 2
  | .SRGB => 1
  | .SRGB48 => 2
  | .SRGBA => 1
  | .SRGBA64 => 2
  | .VEC32F1 => 4
  | .VEC32F2 => 4
  | .LAB8 => 1
  | .SBGRA => 1
  | _ => 0

/-- Modelled from the spec: the framework's `ImageFrame` (image_frame.h) is not part of the
source file: an image buffer with width, height and pixel format. `pixel_data` is `none` for a
frame without pixel storage (a null `PixelData()`), and otherwise lists the channel values in
row-major pixel order, the channels of one pixel next to each other, row padding left out. -/
structure ImageFrame where
  format : Format
  width : Nat
  height : Nat
  pixel_data : Option (List Nat)
  deriving DecidableEq

/-- Modelled from the spec: `cv::Mat` is a class of the OpenCV library, not part of the source
file: the header (dimensions, rows, columns, channels, bytes per channel value) and the data,
`none` for a null data pointer, else the channel values in row-major pixel order. -/
structure Mat where
  dims : Nat
  rows : Nat
  cols : Nat
  channels : Nat
  elemSize1 : Nat
  data : Option (List Nat)
  deriving DecidableEq

/-- The number of pixels, `cv::Mat::total()`. -/
def Mat.total (m : Mat) : Nat := m.rows * m.cols

/-- The size of one pixel in bytes, `cv::Mat::elemSize()`. -/
def Mat.elemSize (m : Mat) : Nat := m.channels * m.elemSize1

/-- The number of bytes of the image, `total() * elemSize()`. -/
def Mat.byteCount (m : Mat) : Nat := m.total * m.elemSize

/-- Modelled from the spec: `cv::Mat::empty()` of the OpenCV library, not part of the source
file; it is `data == 0 || total() == 0 || dims == 0`: an empty buffer is one without pixel
storage or without pixels. -/
def Mat.empty (m : Mat) : Bool := m.data.isNone || m.total == 0 || m.dims == 0

/-- The channel value `k` of the pixel in row `r` and column `c` (0 beyond the data). -/
def Mat.at (m : Mat) (r c k : Nat) : Nat :=
  (m.data.getD []).getD ((r * m.cols + c) * m.channels + k) 0

/-- Modelled from the spec: `formats::MatView` (image_frame_opencv.cc) is not part of the source
file: a two-dimensional `cv::Mat` header of `Height()` rows and `Width()` columns over the
frame's own pixel data, with the frame's channel count and byte depth; nothing is copied. -/
def MatView (image : ImageFrame) : Mat :=
  { dims := 2
    rows := image.height
    cols := image.width
    channels := NumberOfChannelsForFormat image.format
    elemSize1 := ByteDepthForFormat image.format
    data := image.pixel_data }

/-- Modelled from the spec: the two conversion codes of the OpenCV library the calculator
passes to `cv::cvtColor`. -/
inductive ColorConversionCodes where
  | COLOR_RGB2BGR
  | COLOR_RGBA2BGR
  deriving DecidableEq

/-- The data `cv::cvtColor` writes for the first `n` pixels of `src` when it goes from `scn`
channels to three and swaps the first and the third channel: pixel `i` of the result is
(third, second, first channel of pixel `i` of `src`). -/
def swapBlue (scn : Nat) (src : List Nat) : Nat → List Nat
  | 0 => []
  | n + 1 =>
    swapBlue scn src n ++
      [src.getD (n * scn + 2) 0, src.getD (n * scn + 1) 0, src.getD (n * scn) 0]

/-- Modelled from the spec: `cv::cvtColor` is a function of the OpenCV library, not part of the
source file; it is modelled by the meaning of the two conversion codes the source passes
(RGB to BGR, RGBA to BGR): from an image of three or four channels it writes a new image of
the same size and depth with three channels, the first and third channel swapped, a fourth
channel dropped. It throws (`none`) on an empty image and on any other channel count. -/
def cvtColor (src : Mat) (_code : ColorConversionCodes) : Option Mat :=
  if src.empty then none
  else if src.channels = 3 ∨ src.channels = 4 then
    some { dims := src.dims
           rows := src.rows
           cols := src.cols
           channels := 3
           elemSize1 := src.elemSize1
           data := some (swapBlue src.channels (src.data.getD []) src.total) }
  else none

/-- Modelled from the spec: the window flag `cv::WINDOW_GUI_EXPANDED` of the OpenCV library,
not part of the source file. -/
def WINDOW_GUI_EXPANDED : Nat := 0

/-- One call into the OpenCV library, with its arguments: an entry of the record of calls an
entry point of the calculator issues. -/
inductive CvCall where
  | namedWindow (winname : String) (flags : Nat)
  | cvtColor (src : Mat) (code : ColorConversionCodes)
  | imshow (winname : String) (mat : Mat)
  | waitKey (delay : Int)
  | destroyWindow (winname : String)
  deriving DecidableEq

/-! ## Status values -/

/-- Modelled from the spec: the status codes of the framework (status.h, not part of the source
file) that the calculator produces. -/
inductive StatusCode where
  | kOk
  | kInvalidArgument
  | kInternal
  deriving DecidableEq

/-- One operand streamed into a status builder with `<<`: a string literal, a timestamp or an
image format. How the framework prints a timestamp or a format is not part of the source. -/
inductive MessagePart where
  | text (s : String)
  | timestamp (t : Timestamp)
  | format (f : Format)
  deriving DecidableEq

/-- Modelled from the spec: the framework's `::mediapipe::Status` (status.h, not part of the
source file): a code and the message, kept as the sequence of streamed operands. -/
structure Status where
  code : StatusCode
  message : List MessagePart
  deriving DecidableEq

/-- Modelled from the spec: the framework's `::mediapipe::OkStatus()`, success. -/
def OkStatus : Status := ⟨.kOk, []⟩

/-- Modelled from the spec: the framework's `InvalidArgumentErrorBuilder(MEDIAPIPE_LOC) << ...`
(status_builder.h, not part of the source file): the invalid-input error with the streamed
operands as its message. -/
def InvalidArgumentErrorBuilder (message : List MessagePart) : Status :=
  ⟨.kInvalidArgument, message⟩

/-- Modelled from the spec: the framework's `Status::ok()`. -/
def Status.ok (s : Status) : Bool := s.code == .kOk

/-- How the framework prints the operands of a message (`operator<<` for `Timestamp` and for
`ImageFormat::Format`), which the source file does not define. -/
structure Printer where
  timestamp : Timestamp → String
  format : Format → String

/-- The text of a message under a printer: the operands printed one after the other. -/
def renderMessage (p : Printer) : List MessagePart → String
  | [] => ""
  | .text s :: rest => s ++ renderMessage p rest
  | .timestamp t :: rest => p.timestamp t ++ renderMessage p rest
  | .format f :: rest => p.format f ++ renderMessage p rest

/-- Modelled from the spec: the numbers of the formats in image_format.proto, which is not part
of the source file; C++ prints an unscoped enumeration as its number. -/
def Format.number : Format → Nat
  | .UNKNOWN => 0
  | .SRGB => 1
  | .SRGBA => 2
  | .GRAY8 => 3
  | .GRAY16 => 4
  | .YCBCR420P => 5
  | .YCBCR420P10 => 6
  | .SRGB48 => 7
  | .SRGBA64 => 8
  | .VEC32F1 => 9
  | .LAB8 => 10
  | .SBGRA => 11
  | .VEC32F2 => 12

/-- A printer that writes timestamps and formats as decimal numbers. -/
def decimalPrinter : Printer :=
  { timestamp := fun t => toString t.value
    format := fun f => toString f.number }

/-- The text `needle` occurs in the text `s`. -/
def occursIn (needle s : String) : Prop := needle.data <:+: s.data

instance (needle s : String) : Decidable (occursIn needle s) := by
  unfold occursIn; infer_instance

/-! ## The calculator -/

/-- Modelled from the spec: the framework's `Packet` (packet.h, not part of the source file):
empty (`none`) or a payload, and its timestamp. -/
structure Packet (α : Type) where
  payload : Option α
  timestamp : Timestamp
  deriving DecidableEq

/-- Modelled from the spec: what `Process` reads of the framework's `CalculatorContext`
(calculator_context.h, not part of the source file): `InputTimestamp()` and the packet
`Inputs().Tag("VIDEO").Value()`. A VIDEO_PRESTREAM input, when there is one, is never read. -/
structure CalculatorContext where
  InputTimestamp : Timestamp
  video : Packet ImageFrame
  deriving DecidableEq

/-- How a call of an entry point ends: it returns a status, or it does not return (the fatal
check of the framework's `Packet::Get` on an empty packet, an exception thrown by the OpenCV
library). -/
inductive Outcome where
  | returned (status : Status)
  | fatal
  deriving DecidableEq

/-- The result of one entry point: how it ended and the OpenCV calls it issued, in order. -/
structure Step where
  outcome : Outcome
  calls : List CvCall
  deriving DecidableEq

/-- The message of the empty-frame error of `Process`. -/
def emptyFrameMessage (t : Timestamp) : List MessagePart :=
  [.text "Receive empty frame at timestamp ", .timestamp t,
   .text " in OpenCvVideoImShowCalculator::Process()"]

/-- The message of the unsupported-format error of `Process`. -/
def unsupportedFormatMessage (format : Format) : List MessagePart :=
  [.text "Unsupported image format: ", .format format]

/-- The method `OpenCvVideoImShowCalculator::SetupVideoShow`. -/
def SetupVideoShow : Step :=
  ⟨.returned OkStatus, [.namedWindow "MediaPipe" WINDOW_GUI_EXPANDED]⟩

/-- The method `OpenCvVideoImShowCalculator::Open`. -/
def Open (_cc : CalculatorContext) : Step := SetupVideoShow

/-- The tail of `Process` after the format branches: `imshow`, `waitKey(1)`, return OK.
`before` holds the calls issued so far. -/
def showFrame (before : List CvCall) (frame : Mat) : Step :=
  ⟨.returned OkStatus, before ++ [.imshow "MediaPipe" frame, .waitKey 1]⟩

/-- The colour branch of `Process`: `cv::cvtColor(tmp_frame, frame, code)` and the tail. -/
def convertAndShow (tmp_frame : Mat) (code : ColorConversionCodes) : Step :=
  match cvtColor tmp_frame code with
  | none => ⟨.fatal, [.cvtColor tmp_frame code]⟩
  | some frame => showFrame [.cvtColor tmp_frame code] frame

/-- The method `OpenCvVideoImShowCalculator::Process`. -/
def Process (cc : CalculatorContext) : Step :=
  if cc.InputTimestamp = Timestamp.PreStream then SetupVideoShow
  else
    match cc.video.payload with
    | none => ⟨.fatal, []⟩
    | some image_frame =>
      let format := image_frame.format
      if format = .GRAY8 then
        let frame := MatView image_frame
        if frame.empty then
          ⟨.returned (InvalidArgumentErrorBuilder (emptyFrameMessage cc.video.timestamp)), []⟩
        else showFrame [] frame
      else
        let tmp_frame := MatView image_frame
        if tmp_frame.empty then
          ⟨.returned (InvalidArgumentErrorBuilder (emptyFrameMessage cc.video.timestamp)), []⟩
        else if format = .SRGB then convertAndShow tmp_frame .COLOR_RGB2BGR
        else if format = .SRGBA then convertAndShow tmp_frame .COLOR_RGBA2BGR
        else
          ⟨.returned (InvalidArgumentErrorBuilder (unsupportedFormatMessage format)), []⟩

/-- The method `OpenCvVideoImShowCalculator::Close`. -/
def Close (_cc : CalculatorContext) : Step :=
  ⟨.returned OkStatus, [.destroyWindow "MediaPipe"]⟩

/-- A run of the calculator in which `Close` is reached: `Open`, the `Process` steps in order,
`Close`; the OpenCV calls of the whole run, in order. -/
def run (o : CalculatorContext) (steps : List CalculatorContext) (c : CalculatorContext) :
    List CvCall :=
  (Open o).calls ++ (steps.map fun cc => (Process cc).calls).flatten ++ (Close c).calls

/-- The call creates the display window. -/
def CvCall.isCreate : CvCall → Bool
  | .namedWindow _ _ => true
  | _ => false

/-- The call destroys the display window. -/
def CvCall.isDestroy : CvCall → Bool
  | .destroyWindow _ => true
  | _ => false

/-- The call renders an image. -/
def CvCall.isRender : CvCall → Bool
  | .imshow _ _ => true
  | _ => false

/-- The call converts colours. -/
def CvCall.isConvert : CvCall → Bool
  | .cvtColor _ _ => true
  | _ => false

/-- The call pumps the event queue. -/
def CvCall.isEventPump : CvCall → Bool
  | .waitKey _ => true
  | _ => false

/-- The step is a pre-stream step. -/
def CalculatorContext.isPreStream (cc : CalculatorContext) : Bool :=
  cc.InputTimestamp = Timestamp.PreStream

/-! ## The contract -/

/-- Modelled from the spec: the packet type a stream is declared to carry (the framework's
`PacketType`, not part of the source file); `unset` before any declaration. -/
inductive PacketType where
  | unset
  | ImageFrame
  | VideoHeader
  deriving DecidableEq

/-- Modelled from the spec: the framework's `PacketTypeSet` (packet_type.h, the collection
behind `cc->Inputs()`) is not part of the source file: the input streams in their order, each
with its tag and its declared packet type. -/
abbrev PacketTypeSet := List (String × PacketType)

/-- Modelled from the spec: the framework's `HasTag(tag)`: the collection has a stream with
this tag. -/
def HasTag (streams : PacketTypeSet) (tag : String) : Bool :=
  streams.any fun e => e.1 == tag

/-- Modelled from the spec: the declared type of the stream the framework's `Tag(tag)` refers to,
the first stream with this tag. -/
def Tag (streams : PacketTypeSet) (tag : String) : Option PacketType :=
  (streams.find? fun e => e.1 == tag).map Prod.snd

/-- Modelled from the spec: the collection after the framework's `Tag(tag).Set<T>()`: the first
stream with this tag is declared to carry `t`. -/
def TagSet (tag : String) (t : PacketType) : PacketTypeSet → PacketTypeSet
  | [] => []
  | e :: rest => if e.1 = tag then (e.1, t) :: rest else e :: TagSet tag t rest

/-- Modelled from the spec: what `GetContract` reads and writes of the framework's
`CalculatorContract` (calculator_contract.h, not part of the source file): the input streams. -/
structure CalculatorContract where
  inputs : PacketTypeSet
  deriving DecidableEq

/-- Modelled from the spec: the status a failing `RET_CHECK` (ret_check.h, not part of the
source file) returns: an internal error that quotes the condition. -/
def RetCheckFailure (condition : String) : Status :=
  ⟨.kInternal, [.text "RET_CHECK failure ", .text condition]⟩

/-- The method `OpenCvVideoImShowCalculator::GetContract`: the status and the contract it
leaves behind. -/
def GetContract (cc : CalculatorContract) : Status × CalculatorContract :=
  if HasTag cc.inputs "VIDEO" = false then
    (RetCheckFailure "cc->Inputs().HasTag(\"VIDEO\")", cc)
  else
    let cc1 : CalculatorContract := ⟨TagSet "VIDEO" .ImageFrame cc.inputs⟩
    let cc2 : CalculatorContract :=
      if HasTag cc1.inputs "VIDEO_PRESTREAM" then
        ⟨TagSet "VIDEO_PRESTREAM" .VideoHeader cc1.inputs⟩
      else cc1
    (OkStatus, cc2)

/-- What `GetContract` may do to one stream: leave it as it is, declare a VIDEO stream to carry
ImageFrame, or declare a VIDEO_PRESTREAM stream to carry VideoHeader. -/
def declaredBy (before after : String × PacketType) : Prop :=
  after.1 = before.1 ∧
    (after.2 = before.2 ∨ (before.1 = "VIDEO" ∧ after.2 = .ImageFrame) ∨
      (before.1 = "VIDEO_PRESTREAM" ∧ after.2 = .VideoHeader))

/-! ## Concrete inputs -/

/-- A 2x1 grayscale frame at timestamp 40. -/
def grayStep : CalculatorContext :=
  ⟨⟨40⟩, ⟨some ⟨.GRAY8, 2, 1, some [10, 20]⟩, ⟨40⟩⟩⟩

/-- A frame step at timestamp 7 whose frame is default-constructed: format UNKNOWN, no pixels. -/
def emptyUnknownStep : CalculatorContext :=
  ⟨⟨7⟩, ⟨some ⟨.UNKNOWN, 0, 0, none⟩, ⟨7⟩⟩⟩

/-- A frame step at timestamp 100 whose frame is one GRAY16 pixel. -/
def gray16Step : CalculatorContext :=
  ⟨⟨100⟩, ⟨some ⟨.GRAY16, 1, 1, some [513]⟩, ⟨100⟩⟩⟩

/-- A pre-stream step whose VIDEO packet is empty. -/
def preStreamStep : CalculatorContext :=
  ⟨Timestamp.PreStream, ⟨none, Timestamp.PreStream⟩⟩

/-- A frame step at timestamp 5 whose frame is GRAY8 with a null buffer. -/
def emptyGrayStep : CalculatorContext :=
  ⟨⟨5⟩, ⟨some ⟨.GRAY8, 4, 4, none⟩, ⟨5⟩⟩⟩

/-- A contract with a VIDEO, a VIDEO_PRESTREAM and one more input stream, nothing declared. -/
def bothInputs : CalculatorContract :=
  ⟨[("VIDEO", .unset), ("VIDEO_PRESTREAM", .unset), ("AUDIO", .unset)]⟩

/-- A frame step at timestamp 9 whose frame is one SRGBA pixel (1, 2, 3, 4). -/
def rgbaStep : CalculatorContext :=
  ⟨⟨9⟩, ⟨some ⟨.SRGBA, 1, 1, some [1, 2, 3, 4]⟩, ⟨9⟩⟩⟩

/-- A frame step at timestamp 11 whose frame is two SRGB pixels, (1, 2, 3) and (4, 5, 6). -/
def rgbStep : CalculatorContext :=
  ⟨⟨11⟩, ⟨some ⟨.SRGB, 2, 1, some [1, 2, 3, 4, 5, 6]⟩, ⟨11⟩⟩⟩

/-! ## How `Process` branches -/

/-- The colour conversion of the view of a non-empty SRGB or SRGBA frame succeeds, and
`convertAndShow` renders its result. -/
theorem convertAndShow_MatView (image_frame : ImageFrame) (code : ColorConversionCodes)
    (hne : (MatView image_frame).empty = false)
    (hf : image_frame.format = Format.SRGB ∨ image_frame.format = Format.SRGBA) :
    ∃ out : Mat,
      cvtColor (MatView image_frame) code = some out ∧
      convertAndShow (MatView image_frame) code =
        ⟨.returned OkStatus,
          [.cvtColor (MatView image_frame) code, .imshow "MediaPipe" out, .waitKey 1]⟩ ∧
      out.dims = 2 ∧ out.rows = image_frame.height ∧ out.cols = image_frame.width ∧
      out.channels = 3 ∧ out.elemSize1 = 1 ∧
      out.data = some (swapBlue (NumberOfChannelsForFormat image_frame.format)
        (image_frame.pixel_data.getD []) (image_frame.height * image_frame.width)) := by
  have hch : (MatView image_frame).channels = 3 ∨ (MatView image_frame).channels = 4 := by
    rcases hf with h | h <;> simp [MatView, h, NumberOfChannelsForFormat]
  have hd : ByteDepthForFormat image_frame.format = 1 := by
    rcases hf with h | h <;> simp [h, ByteDepthForFormat]
  have hcv : cvtColor (MatView image_frame) code =
      some { dims := 2
             rows := image_frame.height
             cols := image_frame.width
             channels := 3
             elemSize1 := ByteDepthForFormat image_frame.format
             data := some (swapBlue (NumberOfChannelsForFormat image_frame.format)
               (image_frame.pixel_data.getD []) (image_frame.height * image_frame.width)) } := by
    simp only [cvtColor, hne, hch]
    rfl
  refine ⟨_, hcv, ?_, rfl, rfl, rfl, rfl, hd, rfl⟩
  simp only [convertAndShow, hcv]
  rfl

/-- The branches of `Process`, one by one. -/
theorem Process_cases (cc : CalculatorContext) :
    (cc.InputTimestamp = Timestamp.PreStream ∧ Process cc = SetupVideoShow) ∨
    (cc.InputTimestamp ≠ Timestamp.PreStream ∧ cc.video.payload = none ∧
      Process cc = ⟨.fatal, []⟩) ∨
    (cc.InputTimestamp ≠ Timestamp.PreStream ∧ ∃ f, cc.video.payload = some f ∧
      ((MatView f).empty = true ∧
          Process cc = ⟨.returned
            (InvalidArgumentErrorBuilder (emptyFrameMessage cc.video.timestamp)), []⟩ ∨
        (MatView f).empty = false ∧ f.format = Format.GRAY8 ∧
          Process cc = showFrame [] (MatView f) ∨
        (MatView f).empty = false ∧ f.format = Format.SRGB ∧
          Process cc = convertAndShow (MatView f) .COLOR_RGB2BGR ∨
        (MatView f).empty = false ∧ f.format = Format.SRGBA ∧
          Process cc = convertAndShow (MatView f) .COLOR_RGBA2BGR ∨
        (MatView f).empty = false ∧ f.format ≠ Format.GRAY8 ∧ f.format ≠ Format.SRGB ∧
          f.format ≠ Format.SRGBA ∧
          Process cc = ⟨.returned (InvalidArgumentErrorBuilder
            (unsupportedFormatMessage f.format)), []⟩)) := by
  by_cases hts : cc.InputTimestamp = Timestamp.PreStream
  · exact Or.inl ⟨hts, by simp [Process, hts]⟩
  · right
    cases hv : cc.video.payload with
    | none => exact Or.inl ⟨hts, rfl, by simp [Process, hts, hv]⟩
    | some f =>
      refine Or.inr ⟨hts, f, rfl, ?_⟩
      cases he : (MatView f).empty with
      | true =>
        left
        refine ⟨rfl, ?_⟩
        by_cases hg : f.format = Format.GRAY8 <;> simp [Process, hts, hv, hg, he]
      | false =>
        right
        by_cases hg : f.format = Format.GRAY8
        · exact Or.inl ⟨rfl, hg, by simp [Process, hts, hv, hg, he]⟩
        · by_cases hrgb : f.format = Format.SRGB
          · exact Or.inr (Or.inl ⟨rfl, hrgb, by simp [Process, hts, hv, hrgb, he]⟩)
          · by_cases hrgba : f.format = Format.SRGBA
            · exact Or.inr (Or.inr (Or.inl
                ⟨rfl, hrgba, by simp [Process, hts, hv, hrgba, he]⟩))
            · exact Or.inr (Or.inr (Or.inr
                ⟨rfl, hg, hrgb, hrgba, by simp [Process, hts, hv, hg, hrgb, hrgba, he]⟩))

/-- What a step can be: the pre-stream set-up, a fatal stop without any call, an error
without any call, or a render of one image followed by the event pump, after at most a colour
conversion. -/
theorem Process_shapes (cc : CalculatorContext) :
    (cc.InputTimestamp = Timestamp.PreStream ∧ Process cc = SetupVideoShow) ∨
    (cc.InputTimestamp ≠ Timestamp.PreStream ∧
      ((Process cc).calls = [] ∧ (Process cc).outcome ≠ .returned OkStatus ∨
       ∃ pre out, (Process cc).outcome = .returned OkStatus ∧
         (Process cc).calls = pre ++ [.imshow "MediaPipe" out, .waitKey 1] ∧
         (pre = [] ∨ ∃ src code, pre = [.cvtColor src code]))) := by
  rcases Process_cases cc with ⟨h, e⟩ | ⟨h, _, e⟩ | ⟨h, f, _, hc⟩
  · exact Or.inl ⟨h, e⟩
  · exact Or.inr ⟨h, Or.inl (by rw [e]; exact ⟨rfl, by decide⟩)⟩
  · refine Or.inr ⟨h, ?_⟩
    rcases hc with ⟨_, e⟩ | ⟨_, _, e⟩ | ⟨hne, hf, e⟩ | ⟨hne, hf, e⟩ | ⟨_, _, _, _, e⟩
    · exact Or.inl (by rw [e]; exact ⟨rfl, by simp [InvalidArgumentErrorBuilder, OkStatus]⟩)
    · exact Or.inr ⟨[], MatView f, by rw [e]; exact ⟨rfl, rfl, Or.inl rfl⟩⟩
    · obtain ⟨out, _, hs, _⟩ := convertAndShow_MatView f .COLOR_RGB2BGR hne (Or.inl hf)
      exact Or.inr ⟨_, out, by rw [e, hs]; exact ⟨rfl, rfl, Or.inr ⟨_, _, rfl⟩⟩⟩
    · obtain ⟨out, _, hs, _⟩ := convertAndShow_MatView f .COLOR_RGBA2BGR hne (Or.inr hf)
      exact Or.inr ⟨_, out, by rw [e, hs]; exact ⟨rfl, rfl, Or.inr ⟨_, _, rfl⟩⟩⟩
    · exact Or.inl (by rw [e]; exact ⟨rfl, by simp [InvalidArgumentErrorBuilder, OkStatus]⟩)

/-! ## Process on single steps -/

/-- C1: a frame step whose VIDEO frame is GRAY8 with a non-empty buffer returns OK, and its
calls are exactly `imshow("MediaPipe", frame)` followed by `waitKey(1)`, where `frame` is the
view of the input frame itself: same width, height, one channel, the same data, no conversion. -/
theorem Process_gray8 (cc : CalculatorContext) (image_frame : ImageFrame)
    (hts : cc.InputTimestamp ≠ Timestamp.PreStream)
    (hv : cc.video.payload = some image_frame)
    (hf : image_frame.format = Format.GRAY8)
    (hne : (MatView image_frame).empty = false) :
    Process cc =
        ⟨.returned OkStatus, [.imshow "MediaPipe" (MatView image_frame), .waitKey 1]⟩ ∧
      (MatView image_frame).cols = image_frame.width ∧
      (MatView image_frame).rows = image_frame.height ∧
      (MatView image_frame).channels = 1 ∧
      (MatView image_frame).data = image_frame.pixel_data := by
  refine ⟨?_, rfl, rfl, ?_, rfl⟩
  · simp [Process, hts, hv, hf, hne, showFrame]
  · simp [MatView, hf, NumberOfChannelsForFormat]

theorem Process_gray8_witness :
    grayStep.InputTimestamp ≠ Timestamp.PreStream ∧
      (MatView ⟨.GRAY8, 2, 1, some [10, 20]⟩).empty = false ∧
      Process grayStep =
        ⟨.returned OkStatus,
          [.imshow "MediaPipe" ⟨2, 1, 2, 1, 1, some [10, 20]⟩, .waitKey 1]⟩ :=
  ⟨by decide, rfl,
    (Process_gray8 grayStep ⟨.GRAY8, 2, 1, some [10, 20]⟩ (by decide) rfl rfl rfl).1⟩

/-- C3: a frame step whose VIDEO frame has an empty buffer fails, whatever the format, with an
invalid-argument status whose message is "Receive empty frame at timestamp ", the timestamp of
the VIDEO packet, " in OpenCvVideoImShowCalculator::Process()"; no call is issued. -/
theorem Process_empty_frame (cc : CalculatorContext) (image_frame : ImageFrame)
    (hts : cc.InputTimestamp ≠ Timestamp.PreStream)
    (hv : cc.video.payload = some image_frame)
    (he : (MatView image_frame).empty = true) :
    Process cc =
        ⟨.returned ⟨.kInvalidArgument,
          [.text "Receive empty frame at timestamp ", .timestamp cc.video.timestamp,
           .text " in OpenCvVideoImShowCalculator::Process()"]⟩, []⟩ ∧
      ∀ p : Printer,
        renderMessage p (emptyFrameMessage cc.video.timestamp) =
          "Receive empty frame at timestamp " ++ p.timestamp cc.video.timestamp ++
            " in OpenCvVideoImShowCalculator::Process()" := by
  refine ⟨?_, fun p => by simp [renderMessage, emptyFrameMessage, String.append_assoc]⟩
  by_cases hf : image_frame.format = Format.GRAY8 <;>
    simp [Process, hts, hv, hf, he, InvalidArgumentErrorBuilder, emptyFrameMessage]

theorem Process_empty_frame_witness :
    emptyUnknownStep.InputTimestamp ≠ Timestamp.PreStream ∧
      (MatView ⟨.UNKNOWN, 0, 0, none⟩).empty = true ∧
      Process emptyUnknownStep =
        ⟨.returned ⟨.kInvalidArgument,
          [.text "Receive empty frame at timestamp ", .timestamp ⟨7⟩,
           .text " in OpenCvVideoImShowCalculator::Process()"]⟩, []⟩ :=
  ⟨by decide, rfl,
    (Process_empty_frame emptyUnknownStep ⟨.UNKNOWN, 0, 0, none⟩ (by decide) rfl rfl).1⟩

/-- C4, as stated, fails: a frame step whose frame has format UNKNOWN, outside GRAY8, SRGB and
SRGBA, and an empty buffer does not fail with the unsupported-format error but with the
empty-frame error, which `Process` checks first. -/
theorem Process_unsupported_format_counterexample :
    emptyUnknownStep.InputTimestamp ≠ Timestamp.PreStream ∧
      emptyUnknownStep.video.payload = some ⟨.UNKNOWN, 0, 0, none⟩ ∧
      Format.UNKNOWN ≠ Format.GRAY8 ∧ Format.UNKNOWN ≠ Format.SRGB ∧
      Format.UNKNOWN ≠ Format.SRGBA ∧
      (Process emptyUnknownStep).outcome =
        .returned ⟨.kInvalidArgument, emptyFrameMessage ⟨7⟩⟩ ∧
      (Process emptyUnknownStep).outcome ≠
        .returned ⟨.kInvalidArgument, unsupportedFormatMessage .UNKNOWN⟩ := by
  decide

/-- C4, amended: a frame step whose VIDEO frame has a non-empty buffer and a format outside
GRAY8, SRGB and SRGBA fails with an invalid-argument status whose message is
"Unsupported image format: " followed by the format; no call is issued. -/
theorem Process_unsupported_format (cc : CalculatorContext) (image_frame : ImageFrame)
    (hts : cc.InputTimestamp ≠ Timestamp.PreStream)
    (hv : cc.video.payload = some image_frame)
    (hne : (MatView image_frame).empty = false)
    (hg : image_frame.format ≠ Format.GRAY8)
    (hrgb : image_frame.format ≠ Format.SRGB)
    (hrgba : image_frame.format ≠ Format.SRGBA) :
    Process cc =
        ⟨.returned ⟨.kInvalidArgument,
          [.text "Unsupported image format: ", .format image_frame.format]⟩, []⟩ ∧
      ∀ p : Printer,
        renderMessage p (unsupportedFormatMessage image_frame.format) =
          "Unsupported image format: " ++ p.format image_frame.format := by
  refine ⟨?_, fun p => by simp [renderMessage, unsupportedFormatMessage]⟩
  simp [Process, hts, hv, hne, hg, hrgb, hrgba, InvalidArgumentErrorBuilder,
    unsupportedFormatMessage]

theorem Process_unsupported_format_witness :
    gray16Step.InputTimestamp ≠ Timestamp.PreStream ∧
      (MatView ⟨.GRAY16, 1, 1, some [513]⟩).empty = false ∧
      Process gray16Step =
        ⟨.returned ⟨.kInvalidArgument,
          [.text "Unsupported image format: ", .format .GRAY16]⟩, []⟩ :=
  ⟨by decide, rfl,
    (Process_unsupported_format gray16Step ⟨.GRAY16, 1, 1, some [513]⟩ (by decide) rfl rfl
      (by decide) (by decide) (by decide)).1⟩

/-- C5: a pre-stream step returns OK whatever the VIDEO packet holds, and its only call is
`namedWindow("MediaPipe", WINDOW_GUI_EXPANDED)`: no conversion, no render, no event pump. -/
theorem Process_prestream (cc : CalculatorContext)
    (hts : cc.InputTimestamp = Timestamp.PreStream) :
    Process cc = ⟨.returned OkStatus, [.namedWindow "MediaPipe" WINDOW_GUI_EXPANDED]⟩ ∧
      (Process cc).calls.countP CvCall.isCreate = 1 ∧
      (∀ call ∈ (Process cc).calls,
        call.isConvert = false ∧ call.isRender = false ∧ call.isEventPump = false) := by
  have h : Process cc = ⟨.returned OkStatus, [.namedWindow "MediaPipe" WINDOW_GUI_EXPANDED]⟩ := by
    simp [Process, hts, SetupVideoShow]
  rw [h]
  refine ⟨rfl, rfl, ?_⟩
  intro call hc
  simp only [List.mem_singleton] at hc
  subst hc
  exact ⟨rfl, rfl, rfl⟩

theorem Process_prestream_witness :
    preStreamStep.InputTimestamp = Timestamp.PreStream ∧
      Process preStreamStep =
        ⟨.returned OkStatus, [.namedWindow "MediaPipe" WINDOW_GUI_EXPANDED]⟩ :=
  ⟨rfl, (Process_prestream preStreamStep rfl).1⟩

/-! ## Errors of a step -/

/-- C8, as stated, fails: the GRAY16 frame step at timestamp 100 fails with the
unsupported-format error, whose message has no timestamp operand; printed in decimal it reads
"Unsupported image format: 4", in which "100" does not occur. -/
theorem Process_error_timestamp_counterexample :
    gray16Step.video.timestamp = ⟨100⟩ ∧
      (Process gray16Step).outcome =
        .returned ⟨.kInvalidArgument, [.text "Unsupported image format: ", .format .GRAY16]⟩ ∧
      (∀ t, MessagePart.timestamp t ∉ unsupportedFormatMessage .GRAY16) ∧
      renderMessage decimalPrinter (unsupportedFormatMessage .GRAY16) =
        "Unsupported image format: 4" ∧
      decimalPrinter.timestamp ⟨100⟩ = "100" ∧
      ¬ occursIn (decimalPrinter.timestamp ⟨100⟩)
        (renderMessage decimalPrinter (unsupportedFormatMessage .GRAY16)) := by
  refine ⟨rfl, by decide, ?_, by decide, by decide, by decide⟩
  intro t
  simp [unsupportedFormatMessage]

/-- C8, amended: every status other than OK that `Process` returns is an invalid-argument
status with one of two messages. The empty-frame message holds the timestamp of the VIDEO
packet, however timestamps are printed. The unsupported-format message holds the format of the
frame and no timestamp. -/
theorem Process_error_message (cc : CalculatorContext) (s : Status)
    (hret : (Process cc).outcome = .returned s) (hs : s.ok = false) :
    s.code = .kInvalidArgument ∧
      ((s.message = emptyFrameMessage cc.video.timestamp ∧
          MessagePart.timestamp cc.video.timestamp ∈ s.message ∧
          ∀ p : Printer, occursIn (p.timestamp cc.video.timestamp) (renderMessage p s.message)) ∨
        (∃ f, cc.video.payload = some f ∧ (MatView f).empty = false ∧
          s.message = unsupportedFormatMessage f.format ∧
          (∀ t, MessagePart.timestamp t ∉ s.message) ∧
          ∀ p : Printer,
            renderMessage p s.message = "Unsupported image format: " ++ p.format f.format)) := by
  have hempty : ∀ t : Timestamp,
      MessagePart.timestamp t ∈ emptyFrameMessage t ∧
      ∀ p : Printer, occursIn (p.timestamp t) (renderMessage p (emptyFrameMessage t)) := by
    intro t
    refine ⟨by simp [emptyFrameMessage], fun p => ?_⟩
    refine ⟨"Receive empty frame at timestamp ".data,
      " in OpenCvVideoImShowCalculator::Process()".data, ?_⟩
    simp [emptyFrameMessage, renderMessage, String.data_append]
  rcases Process_cases cc with ⟨_, e⟩ | ⟨_, _, e⟩ | ⟨_, f, hv, hc⟩
  · rw [e] at hret
    simp only [SetupVideoShow, Outcome.returned.injEq] at hret
    subst hret
    simp [Status.ok, OkStatus] at hs
  · rw [e] at hret
    simp at hret
  · rcases hc with ⟨_, e⟩ | ⟨_, _, e⟩ | ⟨hne, hf, e⟩ | ⟨hne, hf, e⟩ | ⟨hne, _, _, _, e⟩
    · rw [e] at hret
      simp only [Outcome.returned.injEq] at hret
      subst hret
      exact ⟨rfl, Or.inl ⟨rfl, hempty _⟩⟩
    · rw [e] at hret
      simp only [showFrame, Outcome.returned.injEq] at hret
      subst hret
      simp [Status.ok, OkStatus] at hs
    · obtain ⟨out, _, hsh, _⟩ := convertAndShow_MatView f .COLOR_RGB2BGR hne (Or.inl hf)
      rw [e, hsh] at hret
      simp only [Outcome.returned.injEq] at hret
      subst hret
      simp [Status.ok, OkStatus] at hs
    · obtain ⟨out, _, hsh, _⟩ := convertAndShow_MatView f .COLOR_RGBA2BGR hne (Or.inr hf)
      rw [e, hsh] at hret
      simp only [Outcome.returned.injEq] at hret
      subst hret
      simp [Status.ok, OkStatus] at hs
    · rw [e] at hret
      simp only [Outcome.returned.injEq] at hret
      subst hret
      refine ⟨rfl, Or.inr ⟨f, hv, hne, rfl, ?_, fun p => ?_⟩⟩
      · intro t
        simp [InvalidArgumentErrorBuilder, unsupportedFormatMessage]
      · simp [InvalidArgumentErrorBuilder, unsupportedFormatMessage, renderMessage]

theorem Process_error_message_witness :
    (Process emptyGrayStep).outcome = .returned ⟨.kInvalidArgument, emptyFrameMessage ⟨5⟩⟩ ∧
      Status.ok ⟨.kInvalidArgument, emptyFrameMessage ⟨5⟩⟩ = false ∧
      (StatusCode.kInvalidArgument = StatusCode.kInvalidArgument ∧
        ((emptyFrameMessage ⟨5⟩ = emptyFrameMessage emptyGrayStep.video.timestamp ∧
          MessagePart.timestamp emptyGrayStep.video.timestamp ∈ emptyFrameMessage ⟨5⟩ ∧
          ∀ p : Printer, occursIn (p.timestamp emptyGrayStep.video.timestamp)
            (renderMessage p (emptyFrameMessage ⟨5⟩))) ∨
        (∃ f, emptyGrayStep.video.payload = some f ∧ (MatView f).empty = false ∧
          emptyFrameMessage ⟨5⟩ = unsupportedFormatMessage f.format ∧
          (∀ t, MessagePart.timestamp t ∉ emptyFrameMessage ⟨5⟩) ∧
          ∀ p : Printer, renderMessage p (emptyFrameMessage ⟨5⟩) =
            "Unsupported image format: " ++ p.format f.format))) :=
  ⟨by decide, rfl,
    Process_error_message emptyGrayStep ⟨.kInvalidArgument, emptyFrameMessage ⟨5⟩⟩
      (by decide) rfl⟩

/-- C9: a step that returns an error has issued no call at all. A frame step issues a render
call exactly when it returns OK, and it returns OK exactly when the VIDEO frame has a
non-empty buffer and its format is GRAY8, SRGB or SRGBA. -/
theorem Process_error_no_calls (cc : CalculatorContext) :
    (∀ s, (Process cc).outcome = .returned s → s.ok = false → (Process cc).calls = []) ∧
      (cc.InputTimestamp ≠ Timestamp.PreStream →
        ((∃ call ∈ (Process cc).calls, call.isRender = true) ↔
          (Process cc).outcome = .returned OkStatus) ∧
        ((Process cc).outcome = .returned OkStatus ↔
          ∃ f, cc.video.payload = some f ∧ (MatView f).empty = false ∧
            (f.format = Format.GRAY8 ∨ f.format = Format.SRGB ∨ f.format = Format.SRGBA))) := by
  constructor
  · intro s hret hs
    rcases Process_shapes cc with ⟨_, e⟩ | ⟨_, ⟨hc, _⟩ | ⟨_, _, hok, _⟩⟩
    · rw [e] at hret
      simp only [SetupVideoShow, Outcome.returned.injEq] at hret
      subst hret
      simp [Status.ok, OkStatus] at hs
    · exact hc
    · rw [hok] at hret
      simp only [Outcome.returned.injEq] at hret
      subst hret
      simp [Status.ok, OkStatus] at hs
  · intro hts
    constructor
    · rcases Process_shapes cc with ⟨h, _⟩ | ⟨_, ⟨hc, hno⟩ | ⟨pre, out, hok, hc, _⟩⟩
      · exact absurd h hts
      · simp [hc, hno]
      · simp only [hok, iff_true]
        exact ⟨.imshow "MediaPipe" out, by simp [hc], rfl⟩
    · rcases Process_cases cc with ⟨h, _⟩ | ⟨_, hv, e⟩ | ⟨_, f, hv, hc⟩
      · exact absurd h hts
      · simp [e, hv]
      · rcases hc with ⟨he, e⟩ | ⟨hne, hf, e⟩ | ⟨hne, hf, e⟩ | ⟨hne, hf, e⟩ |
          ⟨hne, hg, hrgb, hrgba, e⟩
        · simp [e, hv, he, InvalidArgumentErrorBuilder, OkStatus]
        · simp [e, hv, hne, hf, showFrame]
        · obtain ⟨out, _, hsh, _⟩ := convertAndShow_MatView f .COLOR_RGB2BGR hne (Or.inl hf)
          simp [e, hsh, hv, hne, hf]
        · obtain ⟨out, _, hsh, _⟩ := convertAndShow_MatView f .COLOR_RGBA2BGR hne (Or.inr hf)
          simp [e, hsh, hv, hne, hf]
        · simp [e, hv, hne, hg, hrgb, hrgba, InvalidArgumentErrorBuilder, OkStatus]

theorem Process_error_no_calls_witness :
    (Process gray16Step).outcome =
        .returned ⟨.kInvalidArgument, unsupportedFormatMessage .GRAY16⟩ ∧
      Status.ok ⟨.kInvalidArgument, unsupportedFormatMessage .GRAY16⟩ = false ∧
      gray16Step.InputTimestamp ≠ Timestamp.PreStream ∧
      (Process gray16Step).calls = [] ∧
      ((Process gray16Step).outcome = .returned OkStatus ↔
        ∃ f, gray16Step.video.payload = some f ∧ (MatView f).empty = false ∧
          (f.format = Format.GRAY8 ∨ f.format = Format.SRGB ∨ f.format = Format.SRGBA)) :=
  ⟨by decide, rfl, by decide,
    (Process_error_no_calls gray16Step).1
      ⟨.kInvalidArgument, unsupportedFormatMessage .GRAY16⟩ (by decide) rfl,
    ((Process_error_no_calls gray16Step).2 (by decide)).2⟩

/-! ## Runs -/

/-- The calls of one step create the window once on a pre-stream step and never otherwise, and
never destroy it. -/
theorem Process_create_destroy (cc : CalculatorContext) :
    (Process cc).calls.countP CvCall.isCreate = (if cc.isPreStream then 1 else 0) ∧
      (Process cc).calls.countP CvCall.isDestroy = 0 := by
  rcases Process_shapes cc with ⟨h, e⟩ | ⟨h, ⟨hc, _⟩ | ⟨pre, out, _, hc, hpre⟩⟩
  · simp [e, SetupVideoShow, CalculatorContext.isPreStream, h, CvCall.isCreate,
      CvCall.isDestroy]
  · simp [hc, CalculatorContext.isPreStream, h]
  · rcases hpre with hp | ⟨src, code, hp⟩ <;>
      simp [hc, hp, CalculatorContext.isPreStream, h, CvCall.isCreate, CvCall.isDestroy]

/-- The calls of a sequence of steps: one window creation per pre-stream step, no destroy. -/
theorem steps_create_destroy (steps : List CalculatorContext) :
    ((steps.map fun cc => (Process cc).calls).flatten).countP CvCall.isCreate =
        steps.countP CalculatorContext.isPreStream ∧
      ((steps.map fun cc => (Process cc).calls).flatten).countP CvCall.isDestroy = 0 := by
  induction steps with
  | nil => exact ⟨rfl, rfl⟩
  | cons cc rest ih =>
    obtain ⟨h1, h2⟩ := Process_create_destroy cc
    simp only [List.map_cons, List.flatten_cons, List.countP_append, h1, h2, ih.1, ih.2,
      List.countP_cons]
    refine ⟨?_, trivial⟩
    by_cases h : cc.isPreStream = true <;> simp [h]; omega

/-- C7: in a run `Open`, steps, `Close` the window is destroyed exactly once, by the last call
of the run, which `Close` issues; no step creates or destroys the window except that every
pre-stream step creates it exactly once; with the creation by `Open` the run creates the
window once plus once per pre-stream step, however many frame steps there are. -/
theorem run_create_destroy (o c : CalculatorContext) (steps : List CalculatorContext) :
    (run o steps c).countP CvCall.isDestroy = 1 ∧
      (run o steps c).getLast? = some (.destroyWindow "MediaPipe") ∧
      (Close c).calls = [.destroyWindow "MediaPipe"] ∧
      (Open o).calls = [.namedWindow "MediaPipe" WINDOW_GUI_EXPANDED] ∧
      (∀ cc, (Process cc).calls.countP CvCall.isDestroy = 0) ∧
      (∀ cc, (Process cc).calls.countP CvCall.isCreate = if cc.isPreStream then 1 else 0) ∧
      (run o steps c).countP CvCall.isCreate = 1 + steps.countP CalculatorContext.isPreStream := by
  obtain ⟨h1, h2⟩ := steps_create_destroy steps
  refine ⟨?_, ?_, rfl, rfl, fun cc => (Process_create_destroy cc).2,
    fun cc => (Process_create_destroy cc).1, ?_⟩
  · simp only [run, List.countP_append, h2]
    rfl
  · simp [run, Close]
  · simp only [run, List.countP_append, h1]
    simp [Open, SetupVideoShow, Close, CvCall.isCreate]

/-! ## GetContract -/

theorem HasTag_TagSet (tag : String) (t : PacketType) (tag2 : String) (l : PacketTypeSet) :
    HasTag (TagSet tag t l) tag2 = HasTag l tag2 := by
  induction l with
  | nil => rfl
  | cons e rest ih =>
    unfold HasTag at ih ⊢
    by_cases h : e.1 = tag
    · simp [TagSet, h]
    · simp [TagSet, h, ih]

theorem Tag_TagSet_same (tag : String) (t : PacketType) (l : PacketTypeSet)
    (h : HasTag l tag = true) : Tag (TagSet tag t l) tag = some t := by
  induction l with
  | nil => simp [HasTag] at h
  | cons e rest ih =>
    by_cases he : e.1 = tag
    · simp [TagSet, Tag, he]
    · have hr : HasTag rest tag = true := by
        simpa [HasTag, he] using h
      have := ih hr
      simp only [Tag] at this ⊢
      simp [TagSet, he, this]

theorem Tag_TagSet_other (tag : String) (t : PacketType) (tag2 : String) (l : PacketTypeSet)
    (h : tag2 ≠ tag) : Tag (TagSet tag t l) tag2 = Tag l tag2 := by
  induction l with
  | nil => rfl
  | cons e rest ih =>
    obtain ⟨a, b⟩ := e
    simp only [Tag] at ih ⊢
    by_cases he : a = tag
    · subst he
      have : ¬ a = tag2 := fun h2 => h h2.symm
      simp [TagSet, List.find?_cons, this]
    · by_cases h2 : a = tag2
      · subst h2
        simp [TagSet, he, List.find?_cons]
      · simp [TagSet, he, List.find?_cons, h2, ih]

theorem TagSet_forall₂ (tag : String) (t : PacketType) (l : PacketTypeSet) :
    List.Forall₂ (fun before after => after.1 = before.1 ∧
      (after.2 = before.2 ∨ (before.1 = tag ∧ after.2 = t))) l (TagSet tag t l) := by
  induction l with
  | nil => exact List.Forall₂.nil
  | cons e rest ih =>
    by_cases he : e.1 = tag
    · simp only [TagSet, if_pos he]
      refine List.Forall₂.cons ⟨rfl, Or.inr ⟨he, rfl⟩⟩ ?_
      exact List.forall₂_same.mpr fun x _ => ⟨rfl, Or.inl rfl⟩
    · simp only [TagSet, if_neg he]
      exact List.Forall₂.cons ⟨rfl, Or.inl rfl⟩ ih

theorem forall₂_chain {α : Type} {R S : α → α → Prop} {l1 l2 l3 : List α}
    (h12 : List.Forall₂ R l1 l2) (h23 : List.Forall₂ S l2 l3) :
    List.Forall₂ (fun a c => ∃ b, R a b ∧ S b c) l1 l3 := by
  induction h12 generalizing l3 with
  | nil =>
    cases h23
    exact List.Forall₂.nil
  | cons hab _ ih =>
    cases h23 with
    | cons hbc hrest => exact List.Forall₂.cons ⟨_, hab, hbc⟩ (ih hrest)

/-- C6: `GetContract` fails exactly when no input stream is tagged VIDEO, and then leaves the
contract alone. When it succeeds, the VIDEO input is declared to carry ImageFrame, a
VIDEO_PRESTREAM input is declared to carry VideoHeader when there is one, and without one
only the VIDEO declaration is made; every stream keeps its tag, and no stream changes its
declared type except by these two declarations. -/
theorem GetContract_declares (cc : CalculatorContract) :
    ((GetContract cc).1.ok = false ↔ HasTag cc.inputs "VIDEO" = false) ∧
      (HasTag cc.inputs "VIDEO" = false → (GetContract cc).2 = cc) ∧
      (HasTag cc.inputs "VIDEO" = true →
        (GetContract cc).1 = OkStatus ∧
        Tag (GetContract cc).2.inputs "VIDEO" = some .ImageFrame ∧
        (HasTag cc.inputs "VIDEO_PRESTREAM" = true →
          Tag (GetContract cc).2.inputs "VIDEO_PRESTREAM" = some .VideoHeader) ∧
        (HasTag cc.inputs "VIDEO_PRESTREAM" = false →
          (GetContract cc).2.inputs = TagSet "VIDEO" .ImageFrame cc.inputs ∧
          Tag (GetContract cc).2.inputs "VIDEO_PRESTREAM" = none) ∧
        List.Forall₂ declaredBy cc.inputs (GetContract cc).2.inputs) := by
  have hne : ("VIDEO_PRESTREAM" : String) ≠ "VIDEO" := by decide
  cases hv : HasTag cc.inputs "VIDEO" with
  | false =>
    refine ⟨?_, ?_, ?_⟩
    · simp [GetContract, hv, RetCheckFailure, Status.ok]
    · intro _
      simp [GetContract, hv]
    · intro h
      cases h
  | true =>
    have hpre : HasTag (TagSet "VIDEO" .ImageFrame cc.inputs) "VIDEO_PRESTREAM" =
        HasTag cc.inputs "VIDEO_PRESTREAM" := HasTag_TagSet _ _ _ _
    refine ⟨?_, ?_, ?_⟩
    · simp [GetContract, hv, OkStatus, Status.ok]
    · intro h
      cases h
    · intro _
      cases hp : HasTag cc.inputs "VIDEO_PRESTREAM" with
      | false =>
        have hout : (GetContract cc).2.inputs = TagSet "VIDEO" .ImageFrame cc.inputs := by
          simp [GetContract, hv, hpre, hp]
        refine ⟨by simp [GetContract, hv], ?_, ?_, ?_, ?_⟩
        · rw [hout]
          exact Tag_TagSet_same _ _ _ hv
        · intro h
          cases h
        · intro _
          refine ⟨hout, ?_⟩
          rw [hout, Tag_TagSet_other _ _ _ _ hne]
          have hnone : ∀ l : PacketTypeSet, HasTag l "VIDEO_PRESTREAM" = false →
              Tag l "VIDEO_PRESTREAM" = none := by
            intro l hl
            simp only [HasTag, List.any_eq_false] at hl
            simp only [Tag, Option.map_eq_none', List.find?_eq_none]
            exact hl
          exact hnone _ hp
        · rw [hout]
          exact (TagSet_forall₂ _ _ _).imp fun {a b} h => ⟨h.1, h.2.imp_right Or.inl⟩
      | true =>
        have hout : (GetContract cc).2.inputs =
            TagSet "VIDEO_PRESTREAM" .VideoHeader (TagSet "VIDEO" .ImageFrame cc.inputs) := by
          simp [GetContract, hv, hpre, hp]
        refine ⟨by simp [GetContract, hv], ?_, ?_, ?_, ?_⟩
        · rw [hout, Tag_TagSet_other _ _ _ _ hne.symm]
          exact Tag_TagSet_same _ _ _ hv
        · intro _
          rw [hout]
          exact Tag_TagSet_same _ _ _ (by rw [hpre]; exact hp)
        · intro h
          cases h
        · rw [hout]
          refine (forall₂_chain (TagSet_forall₂ _ _ _) (TagSet_forall₂ _ _ _)).imp ?_
          rintro a c ⟨b, ⟨h1, h2⟩, h3, h4⟩
          refine ⟨h3.trans h1, ?_⟩
          rcases h4 with h4 | ⟨h4, h5⟩
          · rcases h2 with h2 | ⟨h2, h6⟩
            · exact Or.inl (h4.trans h2)
            · exact Or.inr (Or.inl ⟨h2, h4.trans h6⟩)
          · exact Or.inr (Or.inr ⟨h1 ▸ h4, h5⟩)

theorem GetContract_declares_witness :
    HasTag bothInputs.inputs "VIDEO" = true ∧
      HasTag bothInputs.inputs "VIDEO_PRESTREAM" = true ∧
      GetContract bothInputs =
        (OkStatus,
          ⟨[("VIDEO", .ImageFrame), ("VIDEO_PRESTREAM", .VideoHeader), ("AUDIO", .unset)]⟩) ∧
      Tag (GetContract bothInputs).2.inputs "VIDEO" = some .ImageFrame ∧
      Tag (GetContract bothInputs).2.inputs "VIDEO_PRESTREAM" = some .VideoHeader :=
  ⟨by decide, by decide, by decide,
    ((GetContract_declares bothInputs).2.2 (by decide)).2.1,
    ((GetContract_declares bothInputs).2.2 (by decide)).2.2.1 (by decide)⟩

/-! ## The colour conversion -/

theorem swapBlue_length (scn : Nat) (src : List Nat) (n : Nat) :
    (swapBlue scn src n).length = n * 3 := by
  induction n with
  | zero => rfl
  | succ n ih =>
    simp only [swapBlue, List.length_append, ih, List.length_cons, List.length_nil]
    omega

/-- Pixel `i` of the converted data is the pixel `i` of the source with its first three
channels in reverse order. -/
theorem swapBlue_getD (scn : Nat) (src : List Nat) (n i : Nat) (hi : i < n) :
    (swapBlue scn src n).getD (i * 3) 0 = src.getD (i * scn + 2) 0 ∧
      (swapBlue scn src n).getD (i * 3 + 1) 0 = src.getD (i * scn + 1) 0 ∧
      (swapBlue scn src n).getD (i * 3 + 2) 0 = src.getD (i * scn) 0 := by
  induction n with
  | zero => omega
  | succ n ih =>
    have hlen := swapBlue_length scn src n
    by_cases h : i < n
    · obtain ⟨h0, h1, h2⟩ := ih h
      simp only [swapBlue]
      rw [List.getD_append _ _ _ _ (by omega), List.getD_append _ _ _ _ (by omega),
        List.getD_append _ _ _ _ (by omega)]
      exact ⟨h0, h1, h2⟩
    · have hin : i = n := by omega
      subst hin
      simp only [swapBlue]
      rw [List.getD_append_right _ _ _ _ (by omega), List.getD_append_right _ _ _ _ (by omega),
        List.getD_append_right _ _ _ _ (by omega), hlen]
      have e0 : i * 3 - i * 3 = 0 := by omega
      have e1 : i * 3 + 1 - i * 3 = 1 := by omega
      have e2 : i * 3 + 2 - i * 3 = 2 := by omega
      rw [e0, e1, e2]
      exact ⟨rfl, rfl, rfl⟩

/-- Two lists of `n` pixels of three channels are equal when they agree pixel by pixel. -/
theorem eq_of_pixels_eq (l1 l2 : List Nat) (n : Nat) (h1 : l1.length = n * 3)
    (h2 : l2.length = n * 3)
    (h : ∀ i, i < n → l1.getD (i * 3) 0 = l2.getD (i * 3) 0 ∧
      l1.getD (i * 3 + 1) 0 = l2.getD (i * 3 + 1) 0 ∧
      l1.getD (i * 3 + 2) 0 = l2.getD (i * 3 + 2) 0) : l1 = l2 := by
  apply List.ext_getElem (h1.trans h2.symm)
  intro j hj1 hj2
  rw [← List.getD_eq_getElem l1 0 hj1, ← List.getD_eq_getElem l2 0 hj2]
  obtain ⟨a, b, c⟩ := h (j / 3) (by omega)
  have hj : j = j / 3 * 3 ∨ j = j / 3 * 3 + 1 ∨ j = j / 3 * 3 + 2 := by omega
  rcases hj with e | e | e
  · rw [e]; exact a
  · rw [e]; exact b
  · rw [e]; exact c

/-- On data that holds exactly `n` pixels of three channels, swapping twice gives the data
back. -/
theorem swapBlue_swapBlue (src : List Nat) (n : Nat) (h : src.length = n * 3) :
    swapBlue 3 (swapBlue 3 src n) n = src := by
  apply eq_of_pixels_eq _ _ n (swapBlue_length _ _ _) h
  intro i hi
  obtain ⟨a0, a1, a2⟩ := swapBlue_getD 3 (swapBlue 3 src n) n i hi
  obtain ⟨b0, b1, b2⟩ := swapBlue_getD 3 src n i hi
  exact ⟨a0.trans b2, a1.trans b1, a2.trans b0⟩

/-- The colour steps of `Process`: the conversion code, the converted image and the calls. -/
theorem Process_colour (cc : CalculatorContext) (image_frame : ImageFrame)
    (hts : cc.InputTimestamp ≠ Timestamp.PreStream)
    (hv : cc.video.payload = some image_frame)
    (hne : (MatView image_frame).empty = false)
    (hf : image_frame.format = Format.SRGB ∨ image_frame.format = Format.SRGBA) :
    ∃ (code : ColorConversionCodes) (out : Mat),
      (image_frame.format = Format.SRGB → code = .COLOR_RGB2BGR) ∧
      (image_frame.format = Format.SRGBA → code = .COLOR_RGBA2BGR) ∧
      cvtColor (MatView image_frame) code = some out ∧
      Process cc =
        ⟨.returned OkStatus,
          [.cvtColor (MatView image_frame) code, .imshow "MediaPipe" out, .waitKey 1]⟩ ∧
      out.dims = 2 ∧ out.rows = image_frame.height ∧ out.cols = image_frame.width ∧
      out.channels = 3 ∧ out.elemSize1 = 1 ∧
      out.data = some (swapBlue (NumberOfChannelsForFormat image_frame.format)
        (image_frame.pixel_data.getD []) (image_frame.height * image_frame.width)) := by
  rcases Process_cases cc with ⟨h, _⟩ | ⟨_, hn, _⟩ | ⟨_, f, hv2, hc⟩
  · exact absurd h hts
  · rw [hv] at hn
    cases hn
  · rw [hv] at hv2
    cases hv2
    rcases hc with ⟨he, _⟩ | ⟨_, hg, _⟩ | ⟨_, hrgb, e⟩ | ⟨_, hrgba, e⟩ | ⟨_, _, h1, h2, _⟩
    · rw [hne] at he
      cases he
    · rcases hf with h | h <;> rw [hg] at h <;> cases h
    · obtain ⟨out, hcv, hsh, hrest⟩ :=
        convertAndShow_MatView image_frame .COLOR_RGB2BGR hne hf
      refine ⟨.COLOR_RGB2BGR, out, fun _ => rfl, fun h => ?_, hcv, by rw [e, hsh], hrest⟩
      rw [hrgb] at h
      cases h
    · obtain ⟨out, hcv, hsh, hrest⟩ :=
        convertAndShow_MatView image_frame .COLOR_RGBA2BGR hne hf
      refine ⟨.COLOR_RGBA2BGR, out, fun h => ?_, fun _ => rfl, hcv, by rw [e, hsh], hrest⟩
      rw [hrgba] at h
      cases h
    · rcases hf with h | h
      · exact absurd h h1
      · exact absurd h h2

/-- C2, as stated, fails: the step with one SRGBA pixel returns OK and renders an image of the
same width and height, but of 3 bytes where the view of the input frame has 4. -/
theorem Process_colour_bytes_counterexample :
    rgbaStep.InputTimestamp ≠ Timestamp.PreStream ∧
      (MatView ⟨.SRGBA, 1, 1, some [1, 2, 3, 4]⟩).empty = false ∧
      Process rgbaStep =
        ⟨.returned OkStatus,
          [.cvtColor (MatView ⟨.SRGBA, 1, 1, some [1, 2, 3, 4]⟩) .COLOR_RGBA2BGR,
           .imshow "MediaPipe" ⟨2, 1, 1, 3, 1, some [3, 2, 1]⟩, .waitKey 1]⟩ ∧
      Mat.byteCount ⟨2, 1, 1, 3, 1, some [3, 2, 1]⟩ = 3 ∧
      (MatView ⟨.SRGBA, 1, 1, some [1, 2, 3, 4]⟩).byteCount = 4 ∧
      Mat.byteCount ⟨2, 1, 1, 3, 1, some [3, 2, 1]⟩ ≠
        (MatView ⟨.SRGBA, 1, 1, some [1, 2, 3, 4]⟩).byteCount := by
  decide

/-- C2, amended: a frame step whose VIDEO frame is SRGB or SRGBA with a non-empty buffer
returns OK and renders the colour-converted image, whose width and height are those of the
input frame. Its byte count is that of the input for SRGB; for SRGBA it is three bytes per
pixel where the input has four. -/
theorem Process_colour_dimensions (cc : CalculatorContext) (image_frame : ImageFrame)
    (hts : cc.InputTimestamp ≠ Timestamp.PreStream)
    (hv : cc.video.payload = some image_frame)
    (hne : (MatView image_frame).empty = false)
    (hf : image_frame.format = Format.SRGB ∨ image_frame.format = Format.SRGBA) :
    ∃ (code : ColorConversionCodes) (out : Mat),
      Process cc =
        ⟨.returned OkStatus,
          [.cvtColor (MatView image_frame) code, .imshow "MediaPipe" out, .waitKey 1]⟩ ∧
      (image_frame.format = Format.SRGB → code = .COLOR_RGB2BGR) ∧
      (image_frame.format = Format.SRGBA → code = .COLOR_RGBA2BGR) ∧
      cvtColor (MatView image_frame) code = some out ∧
      out.cols = image_frame.width ∧ out.rows = image_frame.height ∧
      (MatView image_frame).cols = image_frame.width ∧
      (MatView image_frame).rows = image_frame.height ∧
      (image_frame.format = Format.SRGB →
        out.byteCount = (MatView image_frame).byteCount) ∧
      (image_frame.format = Format.SRGBA →
        out.byteCount = image_frame.height * image_frame.width * 3 ∧
        (MatView image_frame).byteCount = image_frame.height * image_frame.width * 4) := by
  obtain ⟨code, out, hc1, hc2, hcv, hp, _, hr, hc, hch, hd, _⟩ :=
    Process_colour cc image_frame hts hv hne hf
  refine ⟨code, out, hp, hc1, hc2, hcv, hc, hr, rfl, rfl, ?_, ?_⟩
  · intro h
    simp [Mat.byteCount, Mat.total, Mat.elemSize, hr, hc, hch, hd, MatView, h,
      NumberOfChannelsForFormat, ByteDepthForFormat]
  · intro h
    simp [Mat.byteCount, Mat.total, Mat.elemSize, hr, hc, hch, hd, MatView, h,
      NumberOfChannelsForFormat, ByteDepthForFormat]

theorem Process_colour_dimensions_witness :
    rgbStep.InputTimestamp ≠ Timestamp.PreStream ∧
      (MatView ⟨.SRGB, 2, 1, some [1, 2, 3, 4, 5, 6]⟩).empty = false ∧
      Process rgbStep =
        ⟨.returned OkStatus,
          [.cvtColor (MatView ⟨.SRGB, 2, 1, some [1, 2, 3, 4, 5, 6]⟩) .COLOR_RGB2BGR,
           .imshow "MediaPipe" ⟨2, 1, 2, 3, 1, some [3, 2, 1, 6, 5, 4]⟩, .waitKey 1]⟩ ∧
      ∃ (code : ColorConversionCodes) (out : Mat),
        Process rgbStep =
          ⟨.returned OkStatus,
            [.cvtColor (MatView ⟨.SRGB, 2, 1, some [1, 2, 3, 4, 5, 6]⟩) code,
             .imshow "MediaPipe" out, .waitKey 1]⟩ ∧
        out.cols = 2 ∧ out.rows = 1 :=
  ⟨by decide, rfl, by decide,
    let ⟨code, out, h1, _, _, _, h3, h4, _⟩ :=
      Process_colour_dimensions rgbStep ⟨.SRGB, 2, 1, some [1, 2, 3, 4, 5, 6]⟩
        (by decide) rfl rfl (Or.inl rfl)
    ⟨code, out, h1, h3, h4⟩⟩

/-- C10: for a non-empty SRGB or SRGBA frame of width w and height h, the image `Process`
renders has w*h pixels of three channels, 3*w*h bytes; the pixel in row r and column c holds
the first three channels of the input pixel in reverse order (b, g, r), the middle one where
it was and an alpha channel dropped; an SRGBA input has 4*w*h bytes; and converting the
rendered image of an SRGB frame whose buffer holds exactly its w*h pixels once more gives the
view of the frame back. -/
theorem Process_colour_pixels (cc : CalculatorContext) (image_frame : ImageFrame)
    (hts : cc.InputTimestamp ≠ Timestamp.PreStream)
    (hv : cc.video.payload = some image_frame)
    (hne : (MatView image_frame).empty = false)
    (hf : image_frame.format = Format.SRGB ∨ image_frame.format = Format.SRGBA) :
    ∃ (code : ColorConversionCodes) (out : Mat) (data : List Nat),
      Process cc =
        ⟨.returned OkStatus,
          [.cvtColor (MatView image_frame) code, .imshow "MediaPipe" out, .waitKey 1]⟩ ∧
      (image_frame.format = Format.SRGB → code = .COLOR_RGB2BGR) ∧
      (image_frame.format = Format.SRGBA → code = .COLOR_RGBA2BGR) ∧
      out.channels = 3 ∧ out.cols = image_frame.width ∧ out.rows = image_frame.height ∧
      out.total = image_frame.height * image_frame.width ∧
      out.byteCount = image_frame.height * image_frame.width * 3 ∧
      out.data = some data ∧ data.length = image_frame.height * image_frame.width * 3 ∧
      (∀ r c, r < image_frame.height → c < image_frame.width →
        out.at r c 0 = (MatView image_frame).at r c 2 ∧
        out.at r c 1 = (MatView image_frame).at r c 1 ∧
        out.at r c 2 = (MatView image_frame).at r c 0) ∧
      (image_frame.format = Format.SRGBA →
        (MatView image_frame).channels = 4 ∧
        (MatView image_frame).byteCount = image_frame.height * image_frame.width * 4) ∧
      (image_frame.format = Format.SRGB →
        (image_frame.pixel_data.getD []).length = image_frame.height * image_frame.width * 3 →
        cvtColor out .COLOR_RGB2BGR = some (MatView image_frame)) := by
  obtain ⟨code, out, hc1, hc2, _, hp, hdims, hr, hc, hch, hd, hdata⟩ :=
    Process_colour cc image_frame hts hv hne hf
  have hlen := swapBlue_length (NumberOfChannelsForFormat image_frame.format)
    (image_frame.pixel_data.getD []) (image_frame.height * image_frame.width)
  refine ⟨code, out, _, hp, hc1, hc2, hch, hc, hr, ?_, ?_, hdata, hlen, ?_, ?_, ?_⟩
  · simp [Mat.total, hr, hc]
  · simp [Mat.byteCount, Mat.total, Mat.elemSize, hr, hc, hch, hd]
  · intro r c hrlt hclt
    have hi : r * image_frame.width + c < image_frame.height * image_frame.width := by
      calc r * image_frame.width + c < r * image_frame.width + image_frame.width := by omega
        _ = (r + 1) * image_frame.width := by ring
        _ ≤ image_frame.height * image_frame.width := Nat.mul_le_mul_right _ hrlt
    obtain ⟨h0, h1, h2⟩ := swapBlue_getD (NumberOfChannelsForFormat image_frame.format)
      (image_frame.pixel_data.getD []) _ _ hi
    simp only [Mat.at, hdata, hc, hch, Option.getD_some, Nat.add_zero]
    exact ⟨h0, h1, h2⟩
  · intro h
    simp [Mat.byteCount, Mat.total, Mat.elemSize, MatView, h, NumberOfChannelsForFormat,
      ByteDepthForFormat]
  · intro h hl
    have hnz : (image_frame.height * image_frame.width == 0) = false := by
      simp only [Mat.empty, MatView, Mat.total, Bool.or_eq_false_iff] at hne
      exact hne.1.2
    have hsome : image_frame.pixel_data = some (image_frame.pixel_data.getD []) := by
      simp only [Mat.empty, MatView, Bool.or_eq_false_iff] at hne
      cases hpd : image_frame.pixel_data with
      | none => simp [hpd] at hne
      | some d => rfl
    have hout : out = ⟨2, image_frame.height, image_frame.width, 3, 1,
        some (swapBlue 3 (image_frame.pixel_data.getD [])
          (image_frame.height * image_frame.width))⟩ := by
      cases out
      simp only [Mat.mk.injEq]
      simp only at hdims hr hc hch hd hdata
      rw [h] at hdata
      exact ⟨hdims, hr, hc, hch, hd, hdata⟩
    rw [hout]
    simp only [cvtColor, Mat.empty, Mat.total, hnz, Option.isNone_some, Bool.false_or,
      Bool.or_false, Option.getD_some, swapBlue_swapBlue _ _ hl]
    simp only [MatView, h, NumberOfChannelsForFormat, ByteDepthForFormat]
    simp [← hsome]

theorem Process_colour_pixels_witness :
    rgbStep.InputTimestamp ≠ Timestamp.PreStream ∧
      (MatView ⟨.SRGB, 2, 1, some [1, 2, 3, 4, 5, 6]⟩).empty = false ∧
      Process rgbStep =
        ⟨.returned OkStatus,
          [.cvtColor (MatView ⟨.SRGB, 2, 1, some [1, 2, 3, 4, 5, 6]⟩) .COLOR_RGB2BGR,
           .imshow "MediaPipe" ⟨2, 1, 2, 3, 1, some [3, 2, 1, 6, 5, 4]⟩, .waitKey 1]⟩ ∧
      cvtColor ⟨2, 1, 2, 3, 1, some [3, 2, 1, 6, 5, 4]⟩ .COLOR_RGB2BGR =
        some (MatView ⟨.SRGB, 2, 1, some [1, 2, 3, 4, 5, 6]⟩) ∧
      ∃ (code : ColorConversionCodes) (out : Mat),
        Process rgbStep =
          ⟨.returned OkStatus,
            [.cvtColor (MatView ⟨.SRGB, 2, 1, some [1, 2, 3, 4, 5, 6]⟩) code,
             .imshow "MediaPipe" out, .waitKey 1]⟩ ∧
        out.channels = 3 ∧ out.byteCount = 1 * 2 * 3 :=
  ⟨by decide, rfl, by decide, by decide,
    let ⟨code, out, _, h1, _, _, h2, _, _, _, h3, _⟩ :=
      Process_colour_pixels rgbStep ⟨.SRGB, 2, 1, some [1, 2, 3, 4, 5, 6]⟩
        (by decide) rfl rfl (Or.inl rfl)
    ⟨code, out, h1, h2, h3⟩⟩

end mediapipe
